import Mathlib

/-!
Verification of the intercept/ingest lifecycle reconciliation engine.

This file gives a shallow embedding of the engine's data model and
operations, translated from the Go sources:

* `pkg/client/userd/trafficmgr/intercept.go` — the client-side session:
  snapshot reconciler, waiter registry, intercept creation/removal and the
  in-process intercept query.
* the manager-side `state` package — agent provisioning
  (`ensureAgent`, `getOrCreateAgentConfig`, `checkInterceptAnnotations`,
  `waitForAgents`, `writeEventList`) and the port matcher (`findIntercept`).

Effectful code is embedded as pure functions that additionally return the
trace of externally observable actions (cancellations, waits, RPCs), or as
step functions consuming an explicit list of race/stream resolutions.
-/

namespace Telepresence

/-- Disposition of an intercept record (`manager.InterceptDispositionType`). -/
inductive Disposition where
  | unspecified
  | active
  | waiting
  | noClient
  | noAgent
  | noMechanism
  | noPorts
  | agentError
  | badArgs
deriving DecidableEq, Repr

/-- The fields of `manager.InterceptSpec` that the embedded code reads. -/
structure InterceptSpec where
  name : String := ""
  agent : String := ""
  nspace : String := ""
  containerName : String := ""
  mechanism : String := ""
  targetHost : String := ""
  targetPort : Int := 0
  serviceName : String := ""
  portIdentifier : String := ""
  replace : Bool := false
deriving DecidableEq, Repr

/-- The fields of `manager.InterceptInfo` that the embedded code reads. -/
structure InterceptInfo where
  id : String := ""
  spec : InterceptSpec := {}
  disposition : Disposition := .unspecified
  message : String := ""
  podIp : String := ""
  clientMountPoint : String := ""
  environment : List (String × String) := []
  metadata : List (String × String) := []
deriving DecidableEq, Repr

/-- The error codes of `common.InterceptError` used by the embedded code. -/
inductive InterceptErrorCode where
  | unspecified
  | alreadyExists
  | localTargetInUse
  | mountPointBusy
  | namespaceAmbiguity
  | trafficManagerError
  | failedToEstablish
  | misconfiguredWorkload
deriving DecidableEq, Repr

/-- The fields of `rpc.InterceptResult` that the embedded code writes. -/
structure InterceptResult where
  error : InterceptErrorCode := .unspecified
  errorText : String := ""
  errorCategoryUser : Bool := false
  interceptInfo : Option InterceptInfo := none
deriving DecidableEq, Repr

/-- The fields of `rpc.CreateInterceptRequest` that the embedded code reads. -/
structure CreateInterceptRequest where
  spec : InterceptSpec := {}
  mountPoint : String := ""
  localMountPort : Int := 0
  mountReadOnly : Bool := false
deriving DecidableEq, Repr

/-! ### Conflict check (`session.ensureNoInterceptConflict`) -/

/-- The loop body of `session.ensureNoInterceptConflict`: scan the current
intercepts; a same-name entry yields `ALREADY_EXISTS`, an entry with the same
non-zero target port and the same target host yields `LOCAL_TARGET_IN_USE`
carrying the existing record.  The Go code iterates a map; the embedding
iterates a list of its values. -/
def interceptConflict (req : CreateInterceptRequest) : List InterceptInfo → Option InterceptResult
  | [] => none
  | iCept :: rest =>
    let spec := req.spec
    if iCept.spec.name == spec.name then
      some { error := .alreadyExists, errorText := spec.name, errorCategoryUser := true }
    else if spec.targetPort != 0 && iCept.spec.targetPort == spec.targetPort
        && iCept.spec.targetHost == spec.targetHost then
      some { error := .localTargetInUse, errorText := spec.name, errorCategoryUser := true,
             interceptInfo := some iCept }
    else interceptConflict req rest

/-- `session.ensureNoInterceptConflict`: first the mount conflict check
(`ensureNoMountConflict`, whose outcome is a parameter here since its body is
outside the embedded sources), then the scan over the current intercepts. -/
def ensureNoInterceptConflict (mountConflict : Option String)
    (current : List InterceptInfo) (req : CreateInterceptRequest) : Option InterceptResult :=
  match mountConflict with
  | some msg => some { error := .mountPointBusy, errorText := msg, errorCategoryUser := true }
  | none => interceptConflict req current

/-! ### Waiter registry (`awaitIntercept`, `session.interceptWaiters`) -/

/-- An `awaitIntercept` registration: the caller-chosen mount configuration
plus the notification channel, modelled by its capacity and the number of
results currently buffered in it. -/
structure AwaitIntercept where
  mountPoint : String := ""
  mountPort : Int := 0
  readOnly : Bool := false
  chanCapacity : Nat := 2
  chanQueued : Nat := 0
deriving DecidableEq, Repr

/-- Lookup in the session's `interceptWaiters` map (modelled as an
association list keyed by intercept name). -/
def lookupWaiter (ws : List (String × AwaitIntercept)) (name : String) : Option AwaitIntercept :=
  match ws.find? (fun p => p.1 == name) with
  | some p => some p.2
  | none => none

/-- Go map `delete(s.interceptWaiters, name)`. -/
def removeWaiter (ws : List (String × AwaitIntercept)) (name : String) :
    List (String × AwaitIntercept) :=
  ws.filter (fun p => p.1 != name)

/-- Go map store `s.interceptWaiters[name] = aw` (insert or replace). -/
def insertWaiter (ws : List (String × AwaitIntercept)) (name : String) (aw : AwaitIntercept) :
    List (String × AwaitIntercept) :=
  (name, aw) :: removeWaiter ws name

/-- Outcome of firing a waiter notification. -/
inductive FireOutcome where
  | noWaiter
  | delivered
  | droppedLogged
deriving DecidableEq, Repr

/-- The waiter-notification step of `session.handleInterceptSnapshot` for one
record that left `WAITING`: the waiter is looked up by the record's name and
deleted from the map under the lock, then the result is sent with a
non-blocking `select`; when the buffered channel cannot accept it, the
`default` branch drops the notification and logs it — no error. -/
def fireWaiter (ws : List (String × AwaitIntercept)) (name : String) :
    List (String × AwaitIntercept) × FireOutcome :=
  match lookupWaiter ws name with
  | none => (ws, .noWaiter)
  | some aw =>
    let ws' := removeWaiter ws name
    if aw.chanQueued < aw.chanCapacity then (ws', .delivered) else (ws', .droppedLogged)

/-- Observable steps of the registration prologue of `session.AddIntercept`. -/
inductive CreateStep where
  | waiterStored (name : String) (chanCapacity : Nat)
  | createRequested (name : String)
deriving DecidableEq, Repr

/-- Result of the registration prologue of `session.AddIntercept`. -/
structure WaiterRegistration where
  registry : List (String × AwaitIntercept)
  trace : List CreateStep
deriving Repr

/-- The registration prologue of `session.AddIntercept`: make the
notification channel with a buffer of 2, store the waiter under the spec
name, and only then send the `CreateIntercept` request to the manager. -/
def addInterceptRegister (ws : List (String × AwaitIntercept)) (ir : CreateInterceptRequest) :
    WaiterRegistration :=
  let aw : AwaitIntercept :=
    { mountPoint := ir.mountPoint, mountPort := ir.localMountPort,
      readOnly := ir.mountReadOnly, chanCapacity := 2, chanQueued := 0 }
  { registry := insertWaiter ws ir.spec.name aw,
    trace := [.waiterStored ir.spec.name aw.chanCapacity, .createRequested ir.spec.name] }

/-! ### Snapshot reconciler (`session.setCurrentIntercepts`) and
client-initiated removal (`session.removeIntercept`) -/

/-- The client-side `intercept` wrapper: the latest record plus the
client-only fields that survive refreshes (`pid`, `handlerContainer`,
`localMountPort`, `readOnly`; `ClientMountPoint` lives on the record). -/
structure Intercept where
  info : InterceptInfo := {}
  pid : Int := 0
  handlerContainer : String := ""
  localMountPort : Int := 0
  readOnly : Bool := false
deriving DecidableEq, Repr

/-- Externally observable teardown actions of the session. -/
inductive TeardownEvent where
  | handlerStopped (name : String)
  | cancelRequested (id : String)
  | drainAwaited (id : String)
  | forgetRequested (name : String)
deriving DecidableEq, Repr

/-- Lookup in the session's `currentIntercepts` map (modelled as a list of
its values, keyed by record ID). -/
def lookupIntercept (cur : List Intercept) (id : String) : Option Intercept :=
  cur.find? (fun ic => ic.info.id == id)

/-- One entry of the new map built by `session.setCurrentIntercepts`: a
known ID keeps its wrapper and retains `ClientMountPoint` (assigned in the
client, never sent by the traffic-manager); a new ID gets a fresh wrapper,
seeded from a registered waiter of the same name when there is one (this is
also where the Go code creates the record's cancellable child context). -/
def refreshIntercept (ws : List (String × AwaitIntercept)) (cur : List Intercept)
    (ii : InterceptInfo) : Intercept :=
  match lookupIntercept cur ii.id with
  | some ic =>
    { ic with info := { ii with clientMountPoint := ic.info.clientMountPoint } }
  | none =>
    match lookupWaiter ws ii.spec.name with
    | some aw =>
      { info := { ii with clientMountPoint := aw.mountPoint },
        localMountPort := aw.mountPort, readOnly := aw.readOnly }
    | none => { info := ii }

/-- `session.setCurrentIntercepts`: build the new authoritative map from the
snapshot, then request cancellation (`ic.cancel()`) of every old ID that is
absent from the new map, and return the new set together with the emitted
teardown actions.  (The trailing `reconcileAPIServers` call maintains the
API-server/matcher maps modelled separately by `interceptInfoQuery`.) -/
def setCurrentIntercepts (ws : List (String × AwaitIntercept)) (cur : List Intercept)
    (iis : List InterceptInfo) : List Intercept × List TeardownEvent :=
  let intercepts := iis.map (refreshIntercept ws cur)
  let dropped := cur.filter (fun ic => !(iis.any (fun ii => ii.id == ic.info.id)))
  (intercepts, dropped.map (fun ic => .cancelRequested ic.info.id))

/-- `session.stopHandler`: stop the handler container or process; errors are
logged, never propagated. -/
def stopHandlerTrace (name : String) : List TeardownEvent :=
  [.handlerStopped name]

/-- `session.removeIntercept` (client-initiated removal): stop the handler,
cancel the intercept's context, wait for the drain (`ic.wg.Wait()`), and only
then tell the manager to remove the intercept. -/
def removeInterceptTrace (ic : Intercept) : List TeardownEvent :=
  stopHandlerTrace ic.info.spec.name ++
    [.cancelRequested ic.info.id, .drainAwaited ic.info.id, .forgetRequested ic.info.spec.name]

/-! ### Creation wait loop (`session.AddIntercept`) -/

/-- One resolution of a `select` inside the wait loop of
`session.AddIntercept`: the caller's deadline fires, a waiter notification
arrives on `waitCh`, or the mounts-done readiness signal fires. -/
inductive WaitResolution where
  | ctxDone
  | notify (err : Option String) (disp : Disposition)
  | mountsReady
deriving DecidableEq, Repr

/-- Outcome of the wait loop of `session.AddIntercept`.  `stuck` stands for
a trace on which the loop has not returned yet. -/
inductive WaitOutcome where
  | failedToEstablish (msg : String)
  | timedOut
  | success
  | stuck
deriving DecidableEq, Repr

/-- The inner `select` of `session.AddIntercept` after an `ACTIVE`
notification: wait for the caller's deadline or the mounts-done signal.
Further buffered waiter notifications do not resolve this select and are
passed over. -/
def awaitMounts : List WaitResolution → WaitOutcome
  | [] => .stuck
  | .ctxDone :: _ => .timedOut
  | .mountsReady :: _ => .success
  | .notify _ _ :: rest => awaitMounts rest

/-- The wait loop of `session.AddIntercept`: a notification carrying an
error returns failure at once; a notification for a non-`ACTIVE` disposition
loops; an `ACTIVE` notification proceeds to the inner mounts-done wait.  A
mounts-ready signal is not selected on before an `ACTIVE` notification and
is passed over. -/
def awaitInterceptResult : List WaitResolution → WaitOutcome
  | [] => .stuck
  | .ctxDone :: _ => .timedOut
  | .mountsReady :: rest => awaitInterceptResult rest
  | .notify (some e) _ :: _ => .failedToEstablish e
  | .notify none d :: rest =>
    if d = .active then awaitMounts rest else awaitInterceptResult rest

/-- How the deferred cleanup of `session.AddIntercept` runs the removal. -/
structure RemovalAttempt where
  detachedFromCaller : Bool
  timeoutSeconds : Nat
deriving DecidableEq, Repr

/-- The deferred cleanup of `session.AddIntercept`: when the wait loop
returned without success, `RemoveIntercept` is attempted best-effort under
`context.WithTimeout(context.WithoutCancel(c), 5*time.Second)` — a scope
detached from the caller's context and bounded to five seconds; a removal
error is only logged.  A `stuck` trace has not returned, so the deferred
function has not run. -/
def addInterceptCleanup : WaitOutcome → Option RemovalAttempt
  | .success => none
  | .stuck => none
  | _ => some { detachedFromCaller := true, timeoutSeconds := 5 }

/-! ### Watch loop (`session.watchInterceptsLoop`, `watchInterceptsHandler`) -/

/-- One step of the intercept stream as seen by `watchInterceptsLoop`:
the loop condition observes a cancelled context, `stream.Recv` yields a
snapshot, or `stream.Recv` fails (with end-of-stream and context state). -/
inductive StreamStep where
  | ctxDone
  | snapshotArrives (iis : List InterceptInfo)
  | recvFails (isEOF : Bool) (ctxDoneNow : Bool)
deriving DecidableEq, Repr

/-- Actions of the watch loop: each is one `handleInterceptSnapshot` call;
a `Recv` failure is handled as the empty snapshot. -/
inductive WatchAction where
  | reconcile (iis : List InterceptInfo)
deriving DecidableEq, Repr

/-- How one run of `watchInterceptsLoop` ended. -/
inductive WatchExit where
  | normalTermination
  | failure
  | stillWatching
deriving DecidableEq, Repr

/-- `session.watchInterceptsLoop`: reconcile every received snapshot; on a
`Recv` error first reconcile as if an empty snapshot had arrived, then
terminate normally when the session context is done or the error is a clean
`io.EOF`, and return the error otherwise. -/
def watchInterceptsLoop : List StreamStep → List WatchAction × WatchExit
  | [] => ([], .stillWatching)
  | .ctxDone :: _ => ([], .normalTermination)
  | .snapshotArrives iis :: rest =>
    let (acts, ex) := watchInterceptsLoop rest
    (.reconcile iis :: acts, ex)
  | .recvFails isEOF ctxDoneNow :: _ =>
    ([.reconcile []], if ctxDoneNow || isEOF then .normalTermination else .failure)

/-- Modelled from the spec: `runWithRetry`, the body of
`session.watchInterceptsHandler`, is not among the embedded sources.  Per
the spec, the watch loop is "retried indefinitely" after an error and stops
when a run terminates normally.  The model consumes a finite list of
successive run traces. -/
def runWithRetry : List (List StreamStep) → List WatchAction × WatchExit
  | [] => ([], .stillWatching)
  | tr :: rest =>
    match watchInterceptsLoop tr with
    | (acts, .failure) =>
      let (acts2, ex) := runWithRetry rest
      (acts ++ acts2, ex)
    | (acts, ex) => (acts, ex)

/-! ### In-process intercept query (`session.InterceptInfo`) -/

/-- An `apiMatcher`: the compiled request matcher together with the
intercept's metadata. -/
structure ApiMatcher where
  ruleMatches : String → List (String × String) → Bool
  metadata : List (String × String)

/-- The fields of `restapi.InterceptInfo` that the embedded code writes. -/
structure RestInterceptInfo where
  clientSide : Bool := false
  intercepted : Bool := false
  metadata : List (String × String) := []

/-- Lookup in the session's `currentMatchers` map (modelled as an
association list keyed by intercept ID). -/
def lookupMatcher (ms : List (String × ApiMatcher)) (callerID : String) : Option ApiMatcher :=
  match ms.find? (fun p => p.1 == callerID) with
  | some p => some p.2
  | none => none

/-- `session.InterceptInfo` (the in-process intercept query): always returns
a non-nil result and a nil error, mirroring the Go `(ptr, error)` pair as
`Option RestInterceptInfo × Option String`. -/
def interceptInfoQuery (ms : List (String × ApiMatcher)) (callerID path : String)
    (headers : List (String × String)) : Option RestInterceptInfo × Option String :=
  let r0 : RestInterceptInfo := { clientSide := true }
  let r : RestInterceptInfo :=
    match lookupMatcher ms callerID with
    | none => r0
    | some am =>
      if am.ruleMatches path headers then
        { r0 with intercepted := true, metadata := am.metadata }
      else r0
  (some r, none)

/-! ### String helpers (substring search over character lists, kept
structurally recursive so that concrete inputs evaluate in the kernel) -/

/-- If `pat` is a prefix of `s`, return the remainder. -/
def dropPre (pat s : List Char) : Option (List Char) :=
  match pat, s with
  | [], rest => some rest
  | _ :: _, [] => none
  | p :: ps, c :: cs => if p == c then dropPre ps cs else none

/-- Split at the first occurrence of the (nonempty) pattern:
`splitFirstChars pat s = some (pre, post)` with `s = pre ++ pat ++ post`. -/
def splitFirstChars (pat : List Char) : List Char → Option (List Char × List Char)
  | [] => none
  | c :: cs =>
    match dropPre pat (c :: cs) with
    | some rest => some ([], rest)
    | none =>
      match splitFirstChars pat cs with
      | some (pre, post) => some (c :: pre, post)
      | none => none

/-- `strings.Contains` for a nonempty pattern. -/
def strContains (s pat : String) : Bool :=
  (splitFirstChars pat.toList s.toList).isSome

/-! ### Port matcher (`state.findIntercept`) -/

/-- The fields of `agentconfig.Intercept` that the embedded code reads. -/
structure AIntercept where
  serviceName : String := ""
  serviceUID : String := ""
  servicePortName : String := ""
  servicePort : Nat := 0
  containerPortName : String := ""
  containerPort : Nat := 0
  protocol : String := ""
deriving DecidableEq, Repr

/-- The fields of `agentconfig.Container` that the embedded code reads. -/
structure AContainer where
  name : String := ""
  intercepts : List AIntercept := []
  replace : Bool := false
deriving DecidableEq, Repr

/-- The fields of `agentconfig.Sidecar` that the embedded code reads. -/
structure Sidecar where
  agentImage : String := ""
  agentName : String := ""
  nspace : String := ""
  workloadKind : String := ""
  workloadName : String := ""
  containers : List AContainer := []
deriving DecidableEq, Repr

/-- The two port-identifier matching predicates
(`agentconfig.IsInterceptForService` / `IsInterceptForContainer`).  Their
bodies live outside the embedded sources; `findIntercept` is verified for
every choice of them. -/
structure PortMatchers where
  isForService : String → AIntercept → Bool
  isForContainer : String → AIntercept → Bool

/-- The per-rule filter of the `findIntercept` loop: a given service name
must equal the rule's; a given port identifier must match the rule, with
service-level matching when the rule carries a service UID and
container-level matching otherwise. -/
def interceptRuleMatches (pm : PortMatchers) (spec : InterceptSpec) (ic : AIntercept) : Bool :=
  (spec.serviceName == "" || spec.serviceName == ic.serviceName) &&
  (spec.portIdentifier == "" ||
    (if ic.serviceUID != "" then pm.isForService spec.portIdentifier ic
     else pm.isForContainer spec.portIdentifier ic))

/-- The error cases of `findIntercept`. -/
inductive FindErr where
  | ambiguousPorts (kind wlName ns : String)
  | ambiguousServices (kind wlName ns pi : String)
  | ambiguousPortsInService (kind wlName ns svc : String)
  | duplicateRule (kind wlName ns svc pi : String)
  | noInterceptablePort (kind wlName ns filters : String)
deriving DecidableEq, Repr

/-- The four-way ambiguity error raised when a second independent rule
matches, selected by which of the service name and port identifier were
given in the request. -/
def ambiguityErr (ac : Sidecar) (spec : InterceptSpec) : FindErr :=
  if spec.serviceName == "" && spec.portIdentifier == "" then
    .ambiguousPorts ac.workloadKind ac.workloadName ac.nspace
  else if spec.serviceName == "" then
    .ambiguousServices ac.workloadKind ac.workloadName ac.nspace spec.portIdentifier
  else if spec.portIdentifier == "" then
    .ambiguousPortsInService ac.workloadKind ac.workloadName ac.nspace spec.serviceName
  else
    .duplicateRule ac.workloadKind ac.workloadName ac.nspace spec.serviceName spec.portIdentifier

/-- The filter description (`ss`) appended to the "has no interceptable
port" message. -/
def filterDesc (spec : InterceptSpec) : String :=
  if spec.serviceName != "" then
    if spec.portIdentifier != "" then
      " matching service " ++ spec.serviceName ++ ", port " ++ spec.portIdentifier
    else
      " matching service " ++ spec.serviceName
  else if spec.portIdentifier != "" then
    " matching port " ++ spec.portIdentifier
  else ""

/-- Rendering of the `findIntercept` error messages, following the Go
format strings. -/
def renderFindErr : FindErr → String
  | .ambiguousPorts k n ns =>
    k ++ " " ++ n ++ "." ++ ns ++ " has multiple interceptable ports.\n" ++
      "Please specify the service and/or port you want to intercept by passing the " ++
      "--service=<svc>" ++ (" and/or " ++ ("--port=<local:portName/portNumber>" ++ " flag."))
  | .ambiguousServices k n ns pi =>
    k ++ " " ++ n ++ "." ++ ns ++ " has multiple interceptable services with port " ++ pi ++
      ".\nPlease specify the service you want to intercept by passing the " ++
      ("--service=<svc>" ++ " flag.")
  | .ambiguousPortsInService k n ns svc =>
    k ++ " " ++ n ++ "." ++ ns ++ " has multiple interceptable ports in service " ++ svc ++
      ".\nPlease specify the port you want to intercept by passing the " ++
      ("--port=<local:svcPortName>" ++ " flag.")
  | .duplicateRule k n ns svc pi =>
    k ++ " " ++ n ++ "." ++ ns ++ " intercept config is broken. Service " ++ svc ++
      ", port " ++ pi ++ " is declared more than once\n"
  | .noInterceptablePort k n ns filters =>
    k ++ " " ++ n ++ "." ++ ns ++ " has no interceptable port" ++ filters

/-- The candidate container of a first matching rule: the enclosing
container, overridden by the first container whose name equals a given
request container name, when such a container exists. -/
def chooseFoundCN (ac : Sidecar) (spec : InterceptSpec) (cn : AContainer) : AContainer :=
  if spec.containerName == "" then cn
  else
    match ac.containers.find? (fun cx => cx.name == spec.containerName) with
    | some cx => cx
    | none => cn

/-- The nested container/intercept iteration order of `findIntercept`. -/
def interceptPairs (ac : Sidecar) : List (AContainer × AIntercept) :=
  ac.containers.flatMap (fun cn => cn.intercepts.map (fun ic => (cn, ic)))

/-- The loop of `findIntercept` with its `foundCN`/`foundIC` accumulator:
the first matching rule becomes the candidate, a second matching rule is the
ambiguity error, and an exhausted iteration yields either the candidate or
the "has no interceptable port" error. -/
def findInterceptLoop (pm : PortMatchers) (ac : Sidecar) (spec : InterceptSpec)
    (found : Option (AContainer × AIntercept)) :
    List (AContainer × AIntercept) → Except FindErr (AContainer × AIntercept)
  | [] =>
    match found with
    | some p => .ok p
    | none =>
      .error (.noInterceptablePort ac.workloadKind ac.workloadName ac.nspace (filterDesc spec))
  | (cn, ic) :: rest =>
    if interceptRuleMatches pm spec ic then
      match found with
      | none => findInterceptLoop pm ac spec (some (chooseFoundCN ac spec cn, ic)) rest
      | some _ => .error (ambiguityErr ac spec)
    else findInterceptLoop pm ac spec found rest

/-- `state.findIntercept`: resolve an intercept spec against the agent
config to exactly one disambiguated (container, intercept-rule) pair, or
fail. -/
def findIntercept (pm : PortMatchers) (ac : Sidecar) (spec : InterceptSpec) :
    Except FindErr (AContainer × AIntercept) :=
  findInterceptLoop pm ac spec none (interceptPairs ac)

/-! ### Agent wait (`state.waitForAgents`, `writeEventList`) -/

/-- The fields of a Kubernetes `events.Event` that the embedded code reads.
`age` carries the rendered age string (`writeEventList` computes it from the
event's creation time and the current time; the embedding carries it on the
event). -/
structure KubeEvent where
  evType : String := ""
  reason : String := ""
  note : String := ""
  regardingKind : String := ""
  regardingName : String := ""
  age : String := ""
deriving DecidableEq, Repr

/-- The fields of `manager.AgentInfo` that the embedded code reads. -/
structure AgentInfo where
  name : String := ""
  nspace : String := ""
  podName : String := ""
  kind : String := ""
deriving DecidableEq, Repr

/-- The known-transient substrings of `waitForAgents`: a Warning carrying
one of these is buffered instead of being fatal. -/
def transientNote (msg : String) : Bool :=
  strContains msg "waiting for ephemeral volume" ||
  strContains msg "unbound immediate PersistentVolumeClaims" ||
  strContains msg "skip schedule deleting pod" ||
  strContains msg "nodes are available"

/-- The character class `[0-9A-Za-z_-]` of the pod-name capture group of
`failedContainerRx`. -/
def podNameChar (c : Char) : Bool :=
  c.isAlphanum || c == '_' || c == '-'

/-- The match of `failedContainerRx`
(`restarting failed container (\S+) in pod ([0-9A-Za-z_-]+)_<namespace>`)
against an event note, returning the captured (container, pod) names.  The
embedding anchors at the first occurrence of the literal head; the
container capture is the maximal non-whitespace run, the pod capture the
longest class run that is immediately followed by `_<namespace>`. -/
def failedContainerMatch (nspace note : String) : Option (String × String) :=
  match splitFirstChars "restarting failed container ".toList note.toList with
  | none => none
  | some (_, rest) =>
    let cn := rest.takeWhile (fun c => !c.isWhitespace)
    if cn.isEmpty then none
    else
      match dropPre " in pod ".toList (rest.drop cn.length) with
      | none => none
      | some rest3 =>
        let run := rest3.takeWhile podNameChar
        match (List.range (run.length + 1)).reverse.find? (fun k =>
            0 < k && (dropPre ('_' :: nspace.toList) (rest3.drop k)).isSome) with
        | some k => some (String.mk cn, String.mk (rest3.take k))
        | none => none

/-- `writeEventList`'s OBJECT column: lower-cased kind, a slash, and the
name of the regarded object. -/
def eventObject (e : KubeEvent) : String :=
  e.regardingKind.toLower ++ "/" ++ e.regardingName

/-- Go `%-*s`: left-justify in a field of the given width (no truncation). -/
def padTo (s : String) (n : Nat) : String :=
  s ++ String.mk (List.replicate (n - s.length) ' ')

/-- A `writeEventList` column width: the longest of the header and every
cell, plus three. -/
def colWidth (header : String) (cell : KubeEvent → String) (es : List KubeEvent) : Nat :=
  (es.foldl (fun m e => max m (cell e).length) header.length) + 3

/-- One rendered `writeEventList` line. -/
def eventLine (aL tL rL oL : Nat) (a t r o m : String) : String :=
  padTo a aL ++ padTo t tL ++ padTo r rL ++ padTo o oL ++ m ++ "\n"

/-- `state.writeEventList`: render the buffered events as a table with
AGE, TYPE, REASON, OBJECT and MESSAGE columns. -/
def writeEventList (es : List KubeEvent) : String :=
  let aL := colWidth "AGE" (fun e => e.age) es
  let tL := colWidth "TYPE" (fun e => e.evType) es
  let rL := colWidth "REASON" (fun e => e.reason) es
  let oL := colWidth "OBJECT" eventObject es
  eventLine aL tL rL oL "AGE" "TYPE" "REASON" "OBJECT" "MESSAGE" ++
    String.join (es.map (fun e => eventLine aL tL rL oL e.age e.evType e.reason (eventObject e) e.note))

/-- The fatal BackOff message: the note plus a pointer to the failing
object's logs. -/
def backOffMsg (e : KubeEvent) : String :=
  e.note ++ "\nThe logs of " ++ e.regardingKind ++ " " ++ e.regardingName ++
    " might provide more details"

/-- The fatal injection/scheduling-failure message: the note plus the
resource-quota hint. -/
def quotaHintMsg (note : String) : String :=
  note ++ "\nHint: if the error mentions resource quota, the traffic-agent's requested " ++
    "resources can be configured by providing values to telepresence helm install"

/-- The timeout/cancellation message of `waitForAgents`, with the buffered
events rendered as a table when there are any. -/
def agentWaitTimeoutMsg (name ns v : String) (fes : List KubeEvent) : String :=
  "request " ++ v ++ " while waiting for agent " ++ name ++ "." ++ ns ++ " to arrive" ++
    (if fes.isEmpty then "" else ": Events that may be relevant:\n" ++ writeEventList fes)

/-- One resolution of the three-way race inside `waitForAgents`: a
non-normal event arrives, the event channel closes, an agent snapshot
arrives, the snapshot channel closes, or the deadline/cancellation fires. -/
inductive AgentRaceStep where
  | failedEvent (e : KubeEvent)
  | failedChannelClosed
  | agentSnapshot (agents : List AgentInfo)
  | snapshotChannelClosed
  | ctxDone (deadlineExceeded : Bool)
deriving DecidableEq, Repr

/-- Result of `waitForAgents`.  `fatalUserError` records whether the failing
container's log was fetched for diagnostics; `stillWaiting` stands for an
exhausted trace on which the loop has not returned, carrying the events
buffered so far. -/
inductive AgentWaitResult where
  | fatalUserError (msg : String) (logsFetched : Bool)
  | internalError (msg : String)
  | canceledError (msg : String)
  | timeoutUserError (msg : String)
  | agents (as : List AgentInfo)
  | stillWaiting (buffered : List KubeEvent)
deriving DecidableEq, Repr

/-- `state.waitForAgents`: race the filtered agent watch, the non-normal
event watch and the deadline.  A `BackOff` event is fatal (its container log
is fetched when the note identifies the container); a
`Failed`/`FailedCreate`/`FailedScheduling` event is fatal unless it is a
Warning carrying a known-transient note, in which case it is buffered; every
other event is buffered.  The first snapshot with a non-blacklisted agent
succeeds; deadline expiry fails with the buffered events rendered as a
table. -/
def waitForAgents (blacklisted : String → String → Bool) (name ns : String) :
    List AgentRaceStep → List KubeEvent → AgentWaitResult
  | [], fes => .stillWaiting fes
  | .failedEvent e :: rest, fes =>
    if e.reason == "BackOff" then
      .fatalUserError (backOffMsg e) (failedContainerMatch ns e.note).isSome
    else if e.reason == "Failed" || e.reason == "FailedCreate"
        || e.reason == "FailedScheduling" then
      if e.evType == "Warning" && transientNote e.note then
        waitForAgents blacklisted name ns rest (fes ++ [e])
      else
        .fatalUserError (quotaHintMsg e.note) false
    else
      waitForAgents blacklisted name ns rest (fes ++ [e])
  | .failedChannelClosed :: _, _ => .internalError "failed create channel closed"
  | .agentSnapshot ags :: rest, fes =>
    if ags.isEmpty then waitForAgents blacklisted name ns rest fes
    else
      let as := ags.filter (fun a => !blacklisted a.podName a.nspace)
      if as.isEmpty then waitForAgents blacklisted name ns rest fes
      else .agents as
  | .snapshotChannelClosed :: _, _ =>
    .canceledError ("channel closed while waiting for agent " ++ name ++ "." ++ ns ++ " to arrive")
  | .ctxDone de :: _, fes =>
    .timeoutUserError (agentWaitTimeoutMsg name ns (if de then "timed out" else "canceled") fes)

/-! ### Workload eligibility (`state.checkInterceptAnnotations`) and agent
provisioning (`state.getOrCreateAgentConfig`, `state.ensureAgent`) -/

/-- `mutator.InjectAnnotation`. -/
def injectAnnot : String := "telepresence.getambassador.io/inject"

/-- `mutator.ManualInjectAnnotation`. -/
def manualInjectAnnot : String := "telepresence.getambassador.io/manually-injected"

/-- `agentconfig.ContainerName`. -/
def agentContainerName : String := "traffic-agent"

/-- The fields of a workload's pod template that the embedded code reads. -/
structure PodTemplate where
  annotations : List (String × String) := []
  containerNames : List String := []
deriving DecidableEq, Repr

/-- The fields of a `k8sapi.Workload` that the embedded code reads. -/
structure Workload where
  kind : String := ""
  name : String := ""
  nspace : String := ""
  podTemplate : PodTemplate := {}
deriving DecidableEq, Repr

/-- Go map read `a[k]` with the zero value `""` for an absent key. -/
def getAnnot (a : List (String × String)) (k : String) : String :=
  match a.find? (fun p => p.1 == k) with
  | some p => p.2
  | none => ""

/-- `state.checkInterceptAnnotations`: decide whether the workload is
eligible for interception from its pod-template annotations.  (Go returns
`true` at once for a nil annotation map; an absent key in a non-nil map
reads as `""` and takes the same paths below, so the embedding needs no
separate nil case.) -/
def checkInterceptAnnotations (wl : Workload) : Except String Bool :=
  let a := wl.podTemplate.annotations
  let manuallyManaged := getAnnot a manualInjectAnnot == "true"
  let ia := getAnnot a injectAnnot
  let webhookEnabledE : Except String Bool :=
    if ia == "" then .ok (!manuallyManaged)
    else if ia == "enabled" then .ok true
    else if ia == "false" || ia == "disabled" then .ok false
    else
      .error (ia ++ " is not a valid value for the " ++ wl.name ++ "." ++ wl.nspace ++
        "/" ++ manualInjectAnnot ++ " annotation")
  match webhookEnabledE with
  | .error e => .error e
  | .ok webhookEnabled =>
    if !manuallyManaged then .ok webhookEnabled
    else if wl.podTemplate.containerNames.contains agentContainerName then .ok true
    else
      .error ("annotation " ++ wl.name ++ "." ++ wl.nspace ++ "/" ++ manualInjectAnnot ++
        "=true but pod has no traffic-agent container")

/-- `state.ValidateAgentImage`. -/
def validateAgentImage (agentImage : String) (extended : Bool) : Except String Unit :=
  if agentImage == "" then
    .error ("intercepts are disabled because the traffic-manager is unable to determine " ++
      "what image to use for injected traffic-agents.")
  else if extended then
    .error "traffic-manager does not support intercepts that require an extended traffic-agent"
  else .ok ()

/-- Result of `getOrCreateAgentConfig`, recording whether the ConfigMap
read-modify-write was entered at all. -/
structure ProvisionOutcome where
  result : Except String Sidecar
  configMapUpdateAttempted : Bool
deriving Repr

/-- `state.getOrCreateAgentConfig`: the annotation eligibility check and the
agent-image validation run before the optimistic read-modify-write of the
namespace's ConfigMap; the read-modify-write callback itself (entry
generation, drift detection, session inactivation) is abstracted as
`updateEntry` and is invoked only after both checks pass. -/
def getOrCreateAgentConfig (wl : Workload) (agentImage : String) (extended : Bool)
    (updateEntry : Unit → Except String Sidecar) : ProvisionOutcome :=
  match checkInterceptAnnotations wl with
  | .error e => { result := .error e, configMapUpdateAttempted := false }
  | .ok enabled =>
    if !enabled then
      { result := .error (wl.kind ++ " " ++ wl.name ++ "." ++ wl.nspace ++ " is not interceptable"),
        configMapUpdateAttempted := false }
    else
      match validateAgentImage agentImage extended with
      | .error e => { result := .error e, configMapUpdateAttempted := false }
      | .ok _ => { result := updateEntry (), configMapUpdateAttempted := true }

/-- Insertion step of `sortAgents` (sort by pod name). -/
def insertAgent (a : AgentInfo) : List AgentInfo → List AgentInfo
  | [] => [a]
  | b :: bs => if a.podName < b.podName then a :: b :: bs else b :: insertAgent a bs

/-- `state.sortAgents`: sort the agent list by pod name. -/
def sortAgents (as : List AgentInfo) : List AgentInfo :=
  as.foldr insertAgent []

/-- Result of `ensureAgent`, recording whether the workload's ConfigMap
entry was dropped (`dropAgentConfig`). -/
structure EnsureAgentOutcome where
  result : Except String (Sidecar × List AgentInfo)
  agentConfigDropped : Bool
deriving Repr

/-- `state.ensureAgent`: when the agent injector is disabled, answer from
the cached ConfigMap entry and the registered agents without ever touching
the entry.  Otherwise subscribe to failed-injection events, ensure the
config entry, and wait for a live agent; exactly when that wait fails, the
just-ensured entry is dropped again (`dropAgentConfig`, so that a later
retry sees no false positive) and the wait error is returned.  The
collaborating steps are abstracted as their outcomes. -/
def ensureAgent (injectorEnabled : Bool)
    (cachedEntry : Except String (Option Sidecar)) (cachedAgents : List AgentInfo)
    (watchEventsResult : Except String Unit)
    (cfgResult : Except String Sidecar)
    (waitResult : Except String (List AgentInfo)) : EnsureAgentOutcome :=
  if !injectorEnabled then
    match cachedEntry with
    | .error e => { result := .error e, agentConfigDropped := false }
    | .ok (some sce) =>
      { result := .ok (sce, sortAgents cachedAgents), agentConfigDropped := false }
    | .ok none =>
      { result := .error "agent-injector is disabled and no agent has been added manually",
        agentConfigDropped := false }
  else
    match watchEventsResult with
    | .error e => { result := .error e, agentConfigDropped := false }
    | .ok _ =>
      match cfgResult with
      | .error e => { result := .error e, agentConfigDropped := false }
      | .ok ac =>
        match waitResult with
        | .error e => { result := .error e, agentConfigDropped := true }
        | .ok as => { result := .ok (ac, sortAgents as), agentConfigDropped := false }

/-! ### Concrete instances used by counterexamples and witnesses -/

/-- A concrete intercept record. -/
def c1Info : InterceptInfo :=
  { id := "icept-1", spec := { name := "hello" } }

/-- A concrete client-side intercept wrapper. -/
def c1Icept : Intercept :=
  { info := c1Info }

/-- A concrete existing intercept for the conflict check. -/
def c5Existing : InterceptInfo :=
  { id := "1",
    spec := { name := "a", nspace := "ns", targetHost := "127.0.0.1", targetPort := 8080 } }

/-- A concrete creation request targeting the same host and port under a
different name. -/
def c5Request : CreateInterceptRequest :=
  { spec := { name := "b", nspace := "ns", targetHost := "127.0.0.1", targetPort := 8080 } }

/-- A concrete BackOff event whose note does not identify the failing
container (no `restarting failed container …` fragment). -/
def c6Event : KubeEvent :=
  { evType := "Warning", reason := "BackOff", note := "Back-off pulling image",
    regardingKind := "Pod", regardingName := "echo-1" }

/-- A concrete workload whose pod template disables injection explicitly
while also carrying the manual-injection marker and declaring the
traffic-agent container. -/
def c7Workload : Workload :=
  { kind := "Deployment", name := "echo", nspace := "ns",
    podTemplate :=
      { annotations := [(injectAnnot, "disabled"), (manualInjectAnnot, "true")],
        containerNames := ["traffic-agent"] } }

/-- Concrete trivial port matchers for witnesses. -/
def c2Matchers : PortMatchers :=
  { isForService := fun _ _ => true, isForContainer := fun _ _ => true }

/-- A concrete agent config with one interceptable port in each of two
services. -/
def c2Sidecar : Sidecar :=
  { workloadKind := "Deployment", workloadName := "echo", nspace := "ns",
    containers :=
      [{ name := "c1",
         intercepts := [{ serviceName := "svcA", containerPort := 80 },
                        { serviceName := "svcB", containerPort := 81 }] }] }

/-- A concrete request filtering on service `svcA`. -/
def c2Spec : InterceptSpec :=
  { serviceName := "svcA" }

/-- A concrete workload whose pod template disables injection explicitly
and carries no manual-injection marker. -/
def c7Disabled : Workload :=
  { kind := "Deployment", name := "echo", nspace := "ns",
    podTemplate := { annotations := [(injectAnnot, "disabled")] } }

/-!
## Claims

Each claim of the specification is settled by one theorem below.
-/

/-- Helper: a successful `awaitMounts` run must have seen the mounts-done
signal. -/
theorem awaitMounts_success (tr : List WaitResolution) (h : awaitMounts tr = .success) :
    ∃ l2 l3, tr = l2 ++ .mountsReady :: l3 := by
  induction tr with
  | nil => cases h
  | cons a rest ih =>
    cases a with
    | ctxDone => cases h
    | mountsReady => exact ⟨[], rest, rfl⟩
    | notify e d =>
      obtain ⟨l2, l3, rfl⟩ := ih h
      exact ⟨.notify e d :: l2, l3, rfl⟩

/-- Helper: a successful creation wait must have seen an `ACTIVE`
notification followed by the mounts-done signal. -/
theorem awaitInterceptResult_success (tr : List WaitResolution)
    (h : awaitInterceptResult tr = .success) :
    ∃ l1 l2 l3, tr = l1 ++ .notify none .active :: (l2 ++ .mountsReady :: l3) := by
  induction tr with
  | nil => cases h
  | cons a rest ih =>
    cases a with
    | ctxDone => cases h
    | mountsReady =>
      obtain ⟨l1, l2, l3, rfl⟩ := ih h
      exact ⟨.mountsReady :: l1, l2, l3, rfl⟩
    | notify e d =>
      cases e with
      | some msg => cases h
      | none =>
        by_cases hd : d = Disposition.active
        · subst hd
          rw [awaitInterceptResult, if_pos rfl] at h
          obtain ⟨l2, l3, rfl⟩ := awaitMounts_success rest h
          exact ⟨[], l2, l3, rfl⟩
        · rw [awaitInterceptResult, if_neg hd] at h
          obtain ⟨l1, l2, l3, rfl⟩ := ih h
          exact ⟨.notify none d :: l1, l2, l3, rfl⟩

/-- Helper: when no remaining rule matches, the loop keeps its candidate. -/
theorem findInterceptLoop_keep (pm : PortMatchers) (ac : Sidecar) (spec : InterceptSpec)
    (pairs : List (AContainer × AIntercept)) (q0 : AContainer × AIntercept)
    (h : ∀ p ∈ pairs, interceptRuleMatches pm spec p.2 = false) :
    findInterceptLoop pm ac spec (some q0) pairs = .ok q0 := by
  induction pairs with
  | nil => rfl
  | cons q rest ih =>
    obtain ⟨cn, ic⟩ := q
    have hq := h (cn, ic) (by simp)
    simp only [findInterceptLoop, hq, Bool.false_eq_true, if_false]
    exact ih (fun p hp => h p (by simp [hp]))

/-- Helper: when no rule matches at all, the loop reports the
"no interceptable port" error carrying the applied filters. -/
theorem findInterceptLoop_none (pm : PortMatchers) (ac : Sidecar) (spec : InterceptSpec)
    (pairs : List (AContainer × AIntercept))
    (h : ∀ p ∈ pairs, interceptRuleMatches pm spec p.2 = false) :
    findInterceptLoop pm ac spec none pairs =
      .error (.noInterceptablePort ac.workloadKind ac.workloadName ac.nspace
        (filterDesc spec)) := by
  induction pairs with
  | nil => rfl
  | cons q rest ih =>
    obtain ⟨cn, ic⟩ := q
    have hq := h (cn, ic) (by simp)
    simp only [findInterceptLoop, hq, Bool.false_eq_true, if_false]
    exact ih (fun p hp => h p (by simp [hp]))

/-- Helper: once a candidate is held, any further matching rule is the
ambiguity error. -/
theorem findInterceptLoop_second (pm : PortMatchers) (ac : Sidecar) (spec : InterceptSpec)
    (pairs : List (AContainer × AIntercept)) (q0 : AContainer × AIntercept)
    (hex : ∃ p ∈ pairs, interceptRuleMatches pm spec p.2 = true) :
    findInterceptLoop pm ac spec (some q0) pairs = .error (ambiguityErr ac spec) := by
  induction pairs with
  | nil => simp at hex
  | cons q rest ih =>
    obtain ⟨cn, ic⟩ := q
    by_cases hm : interceptRuleMatches pm spec ic = true
    · simp [findInterceptLoop, hm]
    · have hmf : interceptRuleMatches pm spec ic = false := by simpa using hm
      simp only [findInterceptLoop, hmf, Bool.false_eq_true, if_false]
      refine ih ?_
      obtain ⟨p, hp, hpm⟩ := hex
      rcases List.mem_cons.mp hp with rfl | hp2
      · exact absurd hpm hm
      · exact ⟨p, hp2, hpm⟩

/-- Helper: a unique matching rule resolves to that rule, with the
container-name override applied. -/
theorem findInterceptLoop_unique (pm : PortMatchers) (ac : Sidecar) (spec : InterceptSpec)
    (pairs : List (AContainer × AIntercept)) (cn : AContainer) (ic : AIntercept)
    (h : pairs.filter (fun p => interceptRuleMatches pm spec p.2) = [(cn, ic)]) :
    findInterceptLoop pm ac spec none pairs = .ok (chooseFoundCN ac spec cn, ic) := by
  induction pairs with
  | nil => simp at h
  | cons q rest ih =>
    obtain ⟨cn2, ic2⟩ := q
    by_cases hm : interceptRuleMatches pm spec ic2 = true
    · rw [List.filter_cons_of_pos (by simpa using hm)] at h
      simp only [List.cons.injEq] at h
      obtain ⟨hq, hrest⟩ := h
      cases hq
      simp only [findInterceptLoop, hm, if_true]
      exact findInterceptLoop_keep pm ac spec rest _
        (fun p hp => by simpa using List.filter_eq_nil_iff.mp hrest p hp)
    · have hmf : interceptRuleMatches pm spec ic2 = false := by simpa using hm
      rw [List.filter_cons_of_neg (by simpa using hm)] at h
      simp only [findInterceptLoop, hmf, Bool.false_eq_true, if_false]
      exact ih h

/-- Helper: two or more matching rules are the ambiguity error. -/
theorem findInterceptLoop_ambiguous (pm : PortMatchers) (ac : Sidecar) (spec : InterceptSpec)
    (pairs : List (AContainer × AIntercept))
    (h : 2 ≤ (pairs.filter (fun p => interceptRuleMatches pm spec p.2)).length) :
    findInterceptLoop pm ac spec none pairs = .error (ambiguityErr ac spec) := by
  induction pairs with
  | nil => simp at h
  | cons q rest ih =>
    obtain ⟨cn2, ic2⟩ := q
    by_cases hm : interceptRuleMatches pm spec ic2 = true
    · rw [List.filter_cons_of_pos (by simpa using hm)] at h
      have hpos : 0 < (rest.filter (fun p => interceptRuleMatches pm spec p.2)).length := by
        simp only [List.length_cons] at h
        omega
      have hne : rest.filter (fun p => interceptRuleMatches pm spec p.2) ≠ [] :=
        List.length_pos.mp hpos
      obtain ⟨p, hp⟩ := List.exists_mem_of_ne_nil _ hne
      rw [List.mem_filter] at hp
      simp only [findInterceptLoop, hm, if_true]
      exact findInterceptLoop_second pm ac spec rest _ ⟨p, hp.1, hp.2⟩
    · have hmf : interceptRuleMatches pm spec ic2 = false := by simpa using hm
      rw [List.filter_cons_of_neg (by simpa using hm)] at h
      simp only [findInterceptLoop, hmf, Bool.false_eq_true, if_false]
      exact ih h

/-- C2: for every request and every set of declared (container, rule)
pairs — and every choice of the external port-identifier matching
predicates — `findIntercept` fails with the four-way ambiguity error when
two independent rules match (the message variant determined by which of
service name and port identifier were given, each naming the flag that
disambiguates), fails with the "has no interceptable port" error carrying
the applied filters when no rule matches, and resolves to the unique
matching rule otherwise. -/
theorem C2_port_matcher (pm : PortMatchers) (ac : Sidecar) (spec : InterceptSpec) :
    (2 ≤ ((interceptPairs ac).filter (fun p => interceptRuleMatches pm spec p.2)).length →
      findIntercept pm ac spec = .error (ambiguityErr ac spec)) ∧
    ((interceptPairs ac).filter (fun p => interceptRuleMatches pm spec p.2) = [] →
      findIntercept pm ac spec =
        .error (.noInterceptablePort ac.workloadKind ac.workloadName ac.nspace
          (filterDesc spec))) ∧
    (∀ cn ic,
      (interceptPairs ac).filter (fun p => interceptRuleMatches pm spec p.2) = [(cn, ic)] →
      findIntercept pm ac spec = .ok (chooseFoundCN ac spec cn, ic)) ∧
    (spec.serviceName = "" → spec.portIdentifier = "" →
      (∃ a b, renderFindErr (ambiguityErr ac spec) = a ++ ("--service=<svc>" ++ b)) ∧
      (∃ a b, renderFindErr (ambiguityErr ac spec) =
        a ++ ("--port=<local:portName/portNumber>" ++ b))) ∧
    (spec.serviceName = "" → spec.portIdentifier ≠ "" →
      ∃ a b, renderFindErr (ambiguityErr ac spec) = a ++ ("--service=<svc>" ++ b)) ∧
    (spec.serviceName ≠ "" → spec.portIdentifier = "" →
      ∃ a b, renderFindErr (ambiguityErr ac spec) = a ++ ("--port=<local:svcPortName>" ++ b)) ∧
    (∃ a, renderFindErr (.noInterceptablePort ac.workloadKind ac.workloadName ac.nspace
        (filterDesc spec)) =
      a ++ (" has no interceptable port" ++ filterDesc spec)) := by
  refine ⟨findInterceptLoop_ambiguous pm ac spec (interceptPairs ac),
    fun hnil => findInterceptLoop_none pm ac spec (interceptPairs ac)
      (fun p hp => by simpa using List.filter_eq_nil_iff.mp hnil p hp),
    fun cn ic h => findInterceptLoop_unique pm ac spec (interceptPairs ac) cn ic h,
    ?_, ?_, ?_, ?_⟩
  · intro h1 h2
    constructor
    · refine ⟨ac.workloadKind ++ " " ++ ac.workloadName ++ "." ++ ac.nspace ++
        " has multiple interceptable ports.\n" ++
        "Please specify the service and/or port you want to intercept by passing the ",
        " and/or " ++ ("--port=<local:portName/portNumber>" ++ " flag."), ?_⟩
      simp [ambiguityErr, h1, h2, renderFindErr, String.append_assoc]
    · refine ⟨ac.workloadKind ++ " " ++ ac.workloadName ++ "." ++ ac.nspace ++
        " has multiple interceptable ports.\n" ++
        "Please specify the service and/or port you want to intercept by passing the " ++
        "--service=<svc>" ++ " and/or ", " flag.", ?_⟩
      simp [ambiguityErr, h1, h2, renderFindErr, String.append_assoc]
  · intro h1 h2
    have h2f : (spec.portIdentifier == "") = false := by simp [h2]
    refine ⟨ac.workloadKind ++ " " ++ ac.workloadName ++ "." ++ ac.nspace ++
      " has multiple interceptable services with port " ++ spec.portIdentifier ++
      ".\nPlease specify the service you want to intercept by passing the ",
      " flag.", ?_⟩
    simp [ambiguityErr, h1, h2f, renderFindErr, String.append_assoc]
  · intro h1 h2
    have h1f : (spec.serviceName == "") = false := by simp [h1]
    refine ⟨ac.workloadKind ++ " " ++ ac.workloadName ++ "." ++ ac.nspace ++
      " has multiple interceptable ports in service " ++ spec.serviceName ++
      ".\nPlease specify the port you want to intercept by passing the ",
      " flag.", ?_⟩
    simp [ambiguityErr, h1f, h2, renderFindErr, String.append_assoc]
  · refine ⟨ac.workloadKind ++ " " ++ ac.workloadName ++ "." ++ ac.nspace, ?_⟩
    simp [renderFindErr, String.append_assoc]

/-- C2 witness: against one interceptable port in `svcA` and one in `svcB`,
the request filtering on `svcA` resolves to the `svcA` rule. -/
theorem C2_port_matcher_witness :
    findIntercept c2Matchers c2Sidecar c2Spec =
      .ok (chooseFoundCN c2Sidecar c2Spec
            { name := "c1",
              intercepts := [{ serviceName := "svcA", containerPort := 80 },
                             { serviceName := "svcB", containerPort := 81 }] },
           { serviceName := "svcA", containerPort := 80 }) :=
  (C2_port_matcher c2Matchers c2Sidecar c2Spec).2.2.1
    { name := "c1",
      intercepts := [{ serviceName := "svcA", containerPort := 80 },
                     { serviceName := "svcB", containerPort := 81 }] }
    { serviceName := "svcA", containerPort := 80 } (by decide)

/-- C3: in the creation wait loop, a waiter notification carrying an error
fails immediately; an `ACTIVE` notification does not yield success until the
mounts-done signal fires (the deadline instead times the wait out); and on
every failure or timeout outcome the half-created intercept's removal is
attempted in a five-second scope detached from the caller's context. -/
theorem C3_creation_wait_loop (e : String) (d : Disposition)
    (rest tr : List WaitResolution) (o : WaitOutcome) :
    (awaitInterceptResult (.notify (some e) d :: rest) = .failedToEstablish e) ∧
    (awaitInterceptResult tr = .success →
      ∃ l1 l2 l3, tr = l1 ++ .notify none .active :: (l2 ++ .mountsReady :: l3)) ∧
    (awaitMounts (.ctxDone :: rest) = .timedOut) ∧
    (awaitInterceptResult tr = o → o ≠ .success → o ≠ .stuck →
      addInterceptCleanup o = some { detachedFromCaller := true, timeoutSeconds := 5 }) := by
  refine ⟨rfl, awaitInterceptResult_success tr, rfl, ?_⟩
  intro _ hs hst
  cases o with
  | failedToEstablish m => rfl
  | timedOut => rfl
  | success => exact absurd rfl hs
  | stuck => exact absurd rfl hst

/-- C3 witness: a concrete timed-out run triggers the detached, bounded
cleanup. -/
theorem C3_creation_wait_loop_witness :
    addInterceptCleanup .timedOut = some { detachedFromCaller := true, timeoutSeconds := 5 } :=
  (C3_creation_wait_loop "e" .active [] [.ctxDone] .timedOut).2.2.2 rfl
    (by decide) (by decide)

/-- Helper: firing with no registered waiter reports `noWaiter`. -/
theorem fireWaiter_of_none (ws : List (String × AwaitIntercept)) (name : String)
    (h : lookupWaiter ws name = none) : fireWaiter ws name = (ws, .noWaiter) := by
  simp [fireWaiter, h]

/-- Helper: looking a name up after `removeWaiter` finds nothing. -/
theorem lookupWaiter_removeWaiter (ws : List (String × AwaitIntercept)) (name : String) :
    lookupWaiter (removeWaiter ws name) name = none := by
  have h : (removeWaiter ws name).find? (fun p => p.1 == name) = none := by
    refine List.find?_eq_none.mpr ?_
    intro x hx
    rw [removeWaiter, List.mem_filter] at hx
    simpa using hx.2
  simp [lookupWaiter, h]

/-- C4: the creation prologue stores the waiter (notification channel of
slack 2) under the intercept name before the create request is issued; when
a record leaves `WAITING` the waiter is removed on first match, so it is
delivered to at most once, and the non-blocking send drops (and logs) the
notification when the receiver has given up, instead of failing. -/
theorem C4_waiter_registry (ws : List (String × AwaitIntercept))
    (ir : CreateInterceptRequest) (name : String) :
    ((addInterceptRegister ws ir).trace =
      [.waiterStored ir.spec.name 2, .createRequested ir.spec.name]) ∧
    (lookupWaiter (addInterceptRegister ws ir).registry ir.spec.name =
      some { mountPoint := ir.mountPoint, mountPort := ir.localMountPort,
             readOnly := ir.mountReadOnly, chanCapacity := 2, chanQueued := 0 }) ∧
    (lookupWaiter (fireWaiter ws name).1 name = none) ∧
    ((fireWaiter (fireWaiter ws name).1 name).2 = .noWaiter) ∧
    (∀ aw, lookupWaiter ws name = some aw →
      (fireWaiter ws name).2 =
        (if aw.chanQueued < aw.chanCapacity then .delivered else .droppedLogged)) := by
  have hrm : lookupWaiter (fireWaiter ws name).1 name = none := by
    cases h : lookupWaiter ws name with
    | none =>
      have h1 : (fireWaiter ws name).1 = ws := by simp [fireWaiter, h]
      rw [h1, h]
    | some aw =>
      by_cases hq : aw.chanQueued < aw.chanCapacity
      · have h1 : (fireWaiter ws name).1 = removeWaiter ws name := by
          simp [fireWaiter, h, hq]
        rw [h1]; exact lookupWaiter_removeWaiter ws name
      · have h1 : (fireWaiter ws name).1 = removeWaiter ws name := by
          simp [fireWaiter, h, hq]
        rw [h1]; exact lookupWaiter_removeWaiter ws name
  refine ⟨rfl, ?_, hrm, ?_, ?_⟩
  · simp [addInterceptRegister, insertWaiter, lookupWaiter]
  · rw [fireWaiter_of_none _ _ hrm]
  · intro aw h
    by_cases hq : aw.chanQueued < aw.chanCapacity <;> simp [fireWaiter, h, hq]

/-- C4 witness: a waiter whose channel buffer is full is dropped and
logged. -/
theorem C4_waiter_registry_witness :
    (fireWaiter [("hello", ⟨"", 0, false, 2, 2⟩)] "hello").2 = .droppedLogged := by
  have h := (C4_waiter_registry [("hello", ⟨"", 0, false, 2, 2⟩)]
    { spec := { name := "x" } } "hello").2.2.2.2 ⟨"", 0, false, 2, 2⟩ (by decide)
  simpa using h

/-- Helper: an intercept that matches neither conflict test lets the scan
continue. -/
theorem interceptConflict_none (req : CreateInterceptRequest) (cur : List InterceptInfo)
    (h : ∀ ii ∈ cur, ii.spec.name ≠ req.spec.name ∧
      ¬(req.spec.targetPort ≠ 0 ∧ ii.spec.targetPort = req.spec.targetPort ∧
        ii.spec.targetHost = req.spec.targetHost)) :
    interceptConflict req cur = none := by
  induction cur with
  | nil => rfl
  | cons a rest ih =>
    obtain ⟨hname, htgt⟩ := h a (by simp)
    have h1 : (a.spec.name == req.spec.name) = false := by simp [hname]
    have h2 : (req.spec.targetPort != 0 && a.spec.targetPort == req.spec.targetPort
        && a.spec.targetHost == req.spec.targetHost) = false := by
      simpa [and_assoc] using htgt
    simp only [interceptConflict, h1, h2, if_false, Bool.false_eq_true]
    exact ih (fun ii hii => h ii (by simp [hii]))

/-- Helper: with no differently-named target conflict present, a same-name
entry makes the scan fail with `ALREADY_EXISTS`. -/
theorem interceptConflict_name (req : CreateInterceptRequest) (cur : List InterceptInfo)
    (hex : ∃ ii ∈ cur, ii.spec.name = req.spec.name)
    (hno : ∀ ii ∈ cur, ii.spec.name ≠ req.spec.name →
      ¬(req.spec.targetPort ≠ 0 ∧ ii.spec.targetPort = req.spec.targetPort ∧
        ii.spec.targetHost = req.spec.targetHost)) :
    interceptConflict req cur =
      some { error := .alreadyExists, errorText := req.spec.name, errorCategoryUser := true } := by
  induction cur with
  | nil => simp at hex
  | cons a rest ih =>
    by_cases hname : a.spec.name = req.spec.name
    · have h1 : (a.spec.name == req.spec.name) = true := by simp [hname]
      simp [interceptConflict, h1]
    · have h1 : (a.spec.name == req.spec.name) = false := by simp [hname]
      have h2 : (req.spec.targetPort != 0 && a.spec.targetPort == req.spec.targetPort
          && a.spec.targetHost == req.spec.targetHost) = false := by
        simpa [and_assoc] using hno a (by simp) hname
      simp only [interceptConflict, h1, h2, if_false, Bool.false_eq_true]
      refine ih ?_ (fun ii hii => hno ii (by simp [hii]))
      obtain ⟨ii, hmem, hiname⟩ := hex
      rcases List.mem_cons.mp hmem with rfl | hmem2
      · exact absurd hiname hname
      · exact ⟨ii, hmem2, hiname⟩

/-- Helper: with no same-name entry present, a target conflict makes the
scan fail with `LOCAL_TARGET_IN_USE` carrying a conflicting record. -/
theorem interceptConflict_target (req : CreateInterceptRequest) (cur : List InterceptInfo)
    (hnoname : ∀ ii ∈ cur, ii.spec.name ≠ req.spec.name)
    (hex : ∃ ii ∈ cur, req.spec.targetPort ≠ 0 ∧ ii.spec.targetPort = req.spec.targetPort ∧
      ii.spec.targetHost = req.spec.targetHost) :
    ∃ ii ∈ cur, ii.spec.targetPort = req.spec.targetPort ∧
      ii.spec.targetHost = req.spec.targetHost ∧
      interceptConflict req cur =
        some { error := .localTargetInUse, errorText := req.spec.name,
               errorCategoryUser := true, interceptInfo := some ii } := by
  induction cur with
  | nil => simp at hex
  | cons a rest ih =>
    have h1 : (a.spec.name == req.spec.name) = false := by simp [hnoname a (by simp)]
    by_cases htr : (req.spec.targetPort != 0 && a.spec.targetPort == req.spec.targetPort
        && a.spec.targetHost == req.spec.targetHost) = true
    · have hp : a.spec.targetPort = req.spec.targetPort ∧
          a.spec.targetHost = req.spec.targetHost := by
        have := htr
        simp only [Bool.and_eq_true, bne_iff_ne, beq_iff_eq] at this
        exact ⟨this.1.2, this.2⟩
      refine ⟨a, by simp, hp.1, hp.2, ?_⟩
      simp [interceptConflict, h1, htr]
    · have h2 : (req.spec.targetPort != 0 && a.spec.targetPort == req.spec.targetPort
          && a.spec.targetHost == req.spec.targetHost) = false := by
        simpa using htr
      obtain ⟨ii, hmem, hii⟩ : ∃ ii ∈ rest, req.spec.targetPort ≠ 0 ∧
          ii.spec.targetPort = req.spec.targetPort ∧
          ii.spec.targetHost = req.spec.targetHost := by
        obtain ⟨ii, hmem, hii⟩ := hex
        rcases List.mem_cons.mp hmem with rfl | hmem2
        · exact absurd (by simp [hii.1, hii.2.1, hii.2.2, and_assoc]) htr
        · exact ⟨ii, hmem2, hii⟩
      obtain ⟨jj, hjmem, hjj⟩ := ih (fun x hx => hnoname x (by simp [hx])) ⟨ii, hmem, hii⟩
      refine ⟨jj, by simp [hjmem], hjj.1, hjj.2.1, ?_⟩
      simp only [interceptConflict, h1, h2, if_false, Bool.false_eq_true]
      exact hjj.2.2

/-- C5: under the session invariant that every current intercept shares the
request's namespace (enforced by `CanIntercept` before the conflict check),
a same-name request fails with an "already exists" class error; a request
with a different name but the same (namespace, target host, target port) as
an existing intercept fails with a "local target in use" class error whose
result carries a conflicting existing record; and a request that conflicts
with no current intercept passes the check. -/
theorem C5_conflict_check (current : List InterceptInfo) (req : CreateInterceptRequest)
    (hns : ∀ ii ∈ current, ii.spec.nspace = req.spec.nspace)
    (hport : req.spec.targetPort ≠ 0) :
    ((∃ ii ∈ current, ii.spec.name = req.spec.name) →
      (∀ ii ∈ current, ii.spec.name ≠ req.spec.name →
        ¬(ii.spec.nspace = req.spec.nspace ∧ ii.spec.targetHost = req.spec.targetHost ∧
          ii.spec.targetPort = req.spec.targetPort)) →
      ensureNoInterceptConflict none current req =
        some { error := .alreadyExists, errorText := req.spec.name,
               errorCategoryUser := true }) ∧
    ((∀ ii ∈ current, ii.spec.name ≠ req.spec.name) →
      (∃ ii ∈ current, ii.spec.nspace = req.spec.nspace ∧
        ii.spec.targetHost = req.spec.targetHost ∧ ii.spec.targetPort = req.spec.targetPort) →
      ∃ ii ∈ current, ii.spec.targetHost = req.spec.targetHost ∧
        ii.spec.targetPort = req.spec.targetPort ∧
        ensureNoInterceptConflict none current req =
          some { error := .localTargetInUse, errorText := req.spec.name,
                 errorCategoryUser := true, interceptInfo := some ii }) ∧
    ((∀ ii ∈ current, ii.spec.name ≠ req.spec.name ∧
        ¬(ii.spec.nspace = req.spec.nspace ∧ ii.spec.targetHost = req.spec.targetHost ∧
          ii.spec.targetPort = req.spec.targetPort)) →
      ensureNoInterceptConflict none current req = none) := by
  refine ⟨?_, ?_, ?_⟩
  · intro hex hno
    refine interceptConflict_name req current hex ?_
    intro ii hmem hname ⟨_, hp, hh⟩
    exact hno ii hmem hname ⟨hns ii hmem, hh, hp⟩
  · intro hnoname hex
    obtain ⟨ii, hmem, _, hh, hp⟩ := hex
    obtain ⟨jj, hjmem, hjp, hjh, heq⟩ :=
      interceptConflict_target req current hnoname ⟨ii, hmem, hport, hp, hh⟩
    exact ⟨jj, hjmem, hjh, hjp, heq⟩
  · intro h
    refine interceptConflict_none req current ?_
    intro ii hmem
    obtain ⟨hname, htgt⟩ := h ii hmem
    refine ⟨hname, ?_⟩
    intro ⟨_, hp, hh⟩
    exact htgt ⟨hns ii hmem, hh, hp⟩

/-- C5 witness: a concrete same-target request with a different name is
rejected as "local target in use", carrying a conflicting record. -/
theorem C5_conflict_check_witness :
    ∃ ii ∈ [c5Existing],
      ii.spec.targetHost = "127.0.0.1" ∧ ii.spec.targetPort = 8080 ∧
      ensureNoInterceptConflict none [c5Existing] c5Request =
        some { error := .localTargetInUse, errorText := "b", errorCategoryUser := true,
               interceptInfo := some ii } :=
  (C5_conflict_check [c5Existing] c5Request (by decide) (by decide)).2.1
    (by decide) (by decide)

/-- C8: the agent provisioner drops the workload's agent-config entry
exactly when the wait for a live agent fails after the entry was ensured —
and on that path it returns the wait failure; no other path deletes the
entry. -/
theorem C8_drop_config_on_wait_failure (inj : Bool)
    (cached : Except String (Option Sidecar)) (cagents : List AgentInfo)
    (watch : Except String Unit) (cfg : Except String Sidecar)
    (wait : Except String (List AgentInfo)) :
    ((ensureAgent inj cached cagents watch cfg wait).agentConfigDropped = true ↔
      (inj = true ∧ watch.isOk = true ∧ cfg.isOk = true ∧ wait.isOk = false)) ∧
    (∀ e ac, inj = true → watch = .ok () → cfg = .ok ac → wait = .error e →
      (ensureAgent inj cached cagents watch cfg wait).result = .error e ∧
      (ensureAgent inj cached cagents watch cfg wait).agentConfigDropped = true) := by
  constructor
  · cases inj with
    | false =>
      rcases cached with e | oc
      · simp [ensureAgent]
      · rcases oc with _ | sce <;> simp [ensureAgent]
    | true =>
      rcases watch with e2 | u <;> rcases cfg with e3 | ac2 <;> rcases wait with e4 | as <;>
        simp [ensureAgent, Except.isOk, Except.toBool]
  · intro e ac hinj hw hc hwt
    subst hinj hw hc hwt
    exact ⟨rfl, rfl⟩

/-- C8 witness: a concrete failed wait after a successful config step drops
the entry and surfaces the wait error. -/
theorem C8_drop_config_on_wait_failure_witness :
    (ensureAgent true (.ok none) [] (.ok ()) (.ok {}) (.error "no agent")).result =
        .error "no agent" ∧
    (ensureAgent true (.ok none) [] (.ok ()) (.ok {}) (.error "no agent")).agentConfigDropped =
        true :=
  (C8_drop_config_on_wait_failure true (.ok none) [] (.ok ()) (.ok {})
    (.error "no agent")).2 "no agent" {} rfl rfl rfl rfl

/-- C6 counterexample: a `BackOff` event whose note does not identify the
failing container (the crash-loop regular expression does not match) is
fatal at once — it is not buffered, although the claim admits immediate
failure only for crash-loops with an identifiable container name. -/
theorem C6_counterexample :
    waitForAgents (fun _ _ => false) "echo" "ns" [.failedEvent c6Event] [] =
      .fatalUserError (backOffMsg c6Event) false ∧
    failedContainerMatch "ns" c6Event.note = none := by
  constructor
  · rfl
  · rfl

/-- Helper: the rendered event table opens with a header row carrying the
AGE, TYPE, REASON, OBJECT and MESSAGE columns. -/
theorem writeEventList_columns (es : List KubeEvent) :
    ∃ a2 a3 a4 a5 b, writeEventList es =
      "AGE" ++ (a2 ++ ("TYPE" ++ (a3 ++ ("REASON" ++ (a4 ++ ("OBJECT" ++
        (a5 ++ ("MESSAGE" ++ b)))))))) := by
  refine ⟨String.mk (List.replicate (colWidth "AGE" (fun e => e.age) es - 3) ' '),
    String.mk (List.replicate (colWidth "TYPE" (fun e => e.evType) es - 4) ' '),
    String.mk (List.replicate (colWidth "REASON" (fun e => e.reason) es - 6) ' '),
    String.mk (List.replicate (colWidth "OBJECT" eventObject es - 6) ' '),
    "\n" ++ String.join (es.map (fun e =>
      eventLine (colWidth "AGE" (fun e => e.age) es) (colWidth "TYPE" (fun e => e.evType) es)
        (colWidth "REASON" (fun e => e.reason) es) (colWidth "OBJECT" eventObject es)
        e.age e.evType e.reason (eventObject e) e.note)), ?_⟩
  simp only [writeEventList, eventLine, padTo, String.append_assoc]
  rfl

/-- C6 (amended): while waiting for a live agent, a `BackOff` event is
always fatal with a descriptive message (the failing container's log is
fetched exactly when the note identifies it); an injection/scheduling
failure (`Failed`/`FailedCreate`/`FailedScheduling`) is fatal unless it is a
Warning carrying a known-transient note, in which case it is buffered;
every other non-normal event is buffered and is not fatal; the wait
succeeds on the first snapshot containing a non-blacklisted agent; and on
deadline expiry it fails with a message rendering the buffered events as a
table with AGE, TYPE, REASON, OBJECT and MESSAGE columns. -/
theorem C6_agent_wait (bl : String → String → Bool) (name ns : String) (e : KubeEvent)
    (rest : List AgentRaceStep) (fes : List KubeEvent) (ags : List AgentInfo) :
    (e.reason = "BackOff" →
      waitForAgents bl name ns (.failedEvent e :: rest) fes =
        .fatalUserError (backOffMsg e) (failedContainerMatch ns e.note).isSome) ∧
    ((e.reason = "Failed" ∨ e.reason = "FailedCreate" ∨ e.reason = "FailedScheduling") →
      e.evType = "Warning" → transientNote e.note = true →
      waitForAgents bl name ns (.failedEvent e :: rest) fes =
        waitForAgents bl name ns rest (fes ++ [e])) ∧
    ((e.reason = "Failed" ∨ e.reason = "FailedCreate" ∨ e.reason = "FailedScheduling") →
      (e.evType == "Warning" && transientNote e.note) = false →
      waitForAgents bl name ns (.failedEvent e :: rest) fes =
        .fatalUserError (quotaHintMsg e.note) false) ∧
    (e.reason ≠ "BackOff" → e.reason ≠ "Failed" → e.reason ≠ "FailedCreate" →
      e.reason ≠ "FailedScheduling" →
      waitForAgents bl name ns (.failedEvent e :: rest) fes =
        waitForAgents bl name ns rest (fes ++ [e])) ∧
    (ags ≠ [] → ags.filter (fun a => !bl a.podName a.nspace) ≠ [] →
      waitForAgents bl name ns (.agentSnapshot ags :: rest) fes =
        .agents (ags.filter (fun a => !bl a.podName a.nspace))) ∧
    (waitForAgents bl name ns (.ctxDone true :: rest) fes =
      .timeoutUserError (agentWaitTimeoutMsg name ns "timed out" fes)) ∧
    (fes ≠ [] → ∃ pre, agentWaitTimeoutMsg name ns "timed out" fes =
      pre ++ writeEventList fes) ∧
    (∃ a2 a3 a4 a5 b, writeEventList fes =
      "AGE" ++ (a2 ++ ("TYPE" ++ (a3 ++ ("REASON" ++ (a4 ++ ("OBJECT" ++
        (a5 ++ ("MESSAGE" ++ b))))))))) := by
  refine ⟨?_, ?_, ?_, ?_, ?_, rfl, ?_, writeEventList_columns fes⟩
  · intro h
    simp [waitForAgents, h]
  · intro hr hw ht
    have h1 : (e.reason == "BackOff") = false := by
      rcases hr with h | h | h <;> simp [h]
    have h2 : (e.reason == "Failed" || e.reason == "FailedCreate"
        || e.reason == "FailedScheduling") = true := by
      rcases hr with h | h | h <;> simp [h]
    have h3 : (e.evType == "Warning" && transientNote e.note) = true := by
      simp [hw, ht]
    simp only [waitForAgents, h1, h2, h3, Bool.false_eq_true, if_false, if_true]
  · intro hr hwt
    have h1 : (e.reason == "BackOff") = false := by
      rcases hr with h | h | h <;> simp [h]
    have h2 : (e.reason == "Failed" || e.reason == "FailedCreate"
        || e.reason == "FailedScheduling") = true := by
      rcases hr with h | h | h <;> simp [h]
    simp only [waitForAgents, h1, h2, hwt, Bool.false_eq_true, if_false, if_true]
  · intro h1 h2 h3 h4
    have g1 : (e.reason == "BackOff") = false := by simp [h1]
    have g2 : (e.reason == "Failed" || e.reason == "FailedCreate"
        || e.reason == "FailedScheduling") = false := by simp [h2, h3, h4]
    simp only [waitForAgents, g1, g2, Bool.false_eq_true, if_false]
  · intro hne hfne
    have g1 : ags.isEmpty = false := by simpa [List.isEmpty_iff] using hne
    have g2 : (ags.filter (fun a => !bl a.podName a.nspace)).isEmpty = false := by
      simpa [List.isEmpty_iff] using hfne
    simp only [waitForAgents, g1, g2, Bool.false_eq_true, if_false]
  · intro hne
    refine ⟨"request " ++ "timed out" ++ " while waiting for agent " ++ name ++ "." ++ ns ++
      " to arrive" ++ ": Events that may be relevant:\n", ?_⟩
    have g : fes.isEmpty = false := by simpa [List.isEmpty_iff] using hne
    simp only [agentWaitTimeoutMsg, g, Bool.false_eq_true, if_false, String.append_assoc]

/-- C6 witness: a snapshot with one live, non-blacklisted agent ends the
wait successfully with that agent. -/
theorem C6_agent_wait_witness :
    waitForAgents (fun _ _ => false) "echo" "ns"
        [.agentSnapshot [{ name := "echo", nspace := "ns", podName := "echo-1" }]] [] =
      .agents [{ name := "echo", nspace := "ns", podName := "echo-1" }] := by
  have h := (C6_agent_wait (fun _ _ => false) "echo" "ns" {} []
    [] [{ name := "echo", nspace := "ns", podName := "echo-1" }]).2.2.2.2.1
    (by decide) (by simp)
  simpa using h

/-- C7 counterexample: a workload whose annotations explicitly disable
injection (`inject: disabled`) while carrying the manual-injection marker
and declaring the traffic-agent container is accepted as eligible, and its
agent-config update is attempted — the explicit disable annotation does not
override the manual-injection marker. -/
theorem C7_counterexample :
    checkInterceptAnnotations c7Workload = .ok true ∧
    (getOrCreateAgentConfig c7Workload "img" false
      (fun _ => .ok {})).configMapUpdateAttempted = true := by
  constructor
  · rfl
  · rfl

/-- C7 (amended): when the manual-injection marker is not `true`, an
explicit disable annotation rejects the workload as not interceptable
before any agent-config record is created; when the marker is `true`, a
valid explicit annotation is ignored and the workload is eligible exactly
when its pod template already declares the traffic-agent container,
otherwise it is rejected with a descriptive error. -/
theorem C7_annotation_policy (wl : Workload) (agentImage : String) (extended : Bool)
    (updateEntry : Unit → Except String Sidecar) :
    ((getAnnot wl.podTemplate.annotations manualInjectAnnot ≠ "true" →
      (getAnnot wl.podTemplate.annotations injectAnnot = "false" ∨
       getAnnot wl.podTemplate.annotations injectAnnot = "disabled") →
      checkInterceptAnnotations wl = .ok false ∧
      (getOrCreateAgentConfig wl agentImage extended updateEntry).result =
        .error (wl.kind ++ " " ++ wl.name ++ "." ++ wl.nspace ++ " is not interceptable") ∧
      (getOrCreateAgentConfig wl agentImage extended updateEntry).configMapUpdateAttempted =
        false)) ∧
    (getAnnot wl.podTemplate.annotations manualInjectAnnot = "true" →
      (getAnnot wl.podTemplate.annotations injectAnnot = "" ∨
       getAnnot wl.podTemplate.annotations injectAnnot = "enabled" ∨
       getAnnot wl.podTemplate.annotations injectAnnot = "false" ∨
       getAnnot wl.podTemplate.annotations injectAnnot = "disabled") →
      (wl.podTemplate.containerNames.contains agentContainerName = true →
        checkInterceptAnnotations wl = .ok true) ∧
      (wl.podTemplate.containerNames.contains agentContainerName = false →
        checkInterceptAnnotations wl =
          .error ("annotation " ++ wl.name ++ "." ++ wl.nspace ++ "/" ++
            manualInjectAnnot ++ "=true but pod has no traffic-agent container"))) := by
  constructor
  · intro hman hia
    have hm : (getAnnot wl.podTemplate.annotations manualInjectAnnot == "true")
        = false := by simp [hman]
    rcases hia with h | h <;>
      simp [checkInterceptAnnotations, getOrCreateAgentConfig, h, hm]
  · intro hman hia
    have hm : (getAnnot wl.podTemplate.annotations manualInjectAnnot == "true")
        = true := by simp [hman]
    constructor
    · intro hc
      rcases hia with h | h | h | h <;>
        simp [checkInterceptAnnotations, h, hm, hc] <;> simpa using hc
    · intro hc
      rcases hia with h | h | h | h <;>
        simp [checkInterceptAnnotations, h, hm, hc] <;> simpa using hc

/-- C7 witness: a concrete workload with `inject: disabled` and no manual
marker is rejected before any config update. -/
theorem C7_annotation_policy_witness :
    checkInterceptAnnotations c7Disabled = .ok false ∧
    (getOrCreateAgentConfig c7Disabled "img" false (fun _ => .ok {})).result =
      .error ("Deployment" ++ " " ++ "echo" ++ "." ++ "ns" ++ " is not interceptable") ∧
    (getOrCreateAgentConfig c7Disabled "img" false
      (fun _ => .ok {})).configMapUpdateAttempted = false :=
  (C7_annotation_policy c7Disabled "img" false (fun _ => .ok {})).1
    (by decide) (Or.inr (by decide))

/-- C9: when receiving from the intercept stream fails, the loop first
reconciles as if an empty snapshot had arrived; it then terminates normally
exactly when the session context is done or the error is a clean
end-of-stream, and any other error makes the handler retry the watch, so a
transient disconnect does not permanently tear down the intercepts. -/
theorem C9_watch_retry (snaps : List (List InterceptInfo)) (isEOF cd : Bool)
    (tr : List StreamStep) (rest : List (List StreamStep)) :
    (watchInterceptsLoop (snaps.map .snapshotArrives ++ [.recvFails isEOF cd]) =
      (snaps.map .reconcile ++ [.reconcile []],
        if cd || isEOF then .normalTermination else .failure)) ∧
    (∀ acts, watchInterceptsLoop tr = (acts, .failure) →
      runWithRetry (tr :: rest) = (acts ++ (runWithRetry rest).1, (runWithRetry rest).2)) ∧
    (∀ acts, watchInterceptsLoop tr = (acts, .normalTermination) →
      runWithRetry (tr :: rest) = (acts, .normalTermination)) := by
  refine ⟨?_, ?_, ?_⟩
  · induction snaps with
    | nil => rfl
    | cons s ss ih => simp [watchInterceptsLoop, ih]
  · intro acts h
    simp [runWithRetry, h]
  · intro acts h
    simp [runWithRetry, h]

/-- C9 witness: a non-EOF receive error reconciles to empty and retries;
end-of-stream then terminates the handler normally. -/
theorem C9_watch_retry_witness :
    runWithRetry [[.recvFails false false]] =
      ([.reconcile []] ++ (runWithRetry ([] : List (List StreamStep))).1,
        (runWithRetry ([] : List (List StreamStep))).2) :=
  (C9_watch_retry [] false false [.recvFails false false] []).2.1 [.reconcile []] rfl

/-- C10: the in-process intercept query always returns a non-nil result and
a nil error; the result reports intercepted together with the matcher's
metadata exactly when a request matcher registered under the callerID
matches the path and headers, and an unknown callerID yields
intercepted=false rather than an error. -/
theorem C10_intercept_query (ms : List (String × ApiMatcher)) (callerID path : String)
    (headers : List (String × String)) :
    (interceptInfoQuery ms callerID path headers).2 = none ∧
    ∃ info, (interceptInfoQuery ms callerID path headers).1 = some info ∧
      info.clientSide = true ∧
      (info.intercepted = true ↔
        ∃ am, lookupMatcher ms callerID = some am ∧ am.ruleMatches path headers = true) ∧
      (∀ am, lookupMatcher ms callerID = some am → am.ruleMatches path headers = true →
        info.metadata = am.metadata) := by
  refine ⟨rfl, ?_⟩
  cases h : lookupMatcher ms callerID with
  | none =>
    refine ⟨{ clientSide := true }, ?_, rfl, ?_, ?_⟩
    · simp [interceptInfoQuery, h]
    · constructor
      · intro hf
        cases hf
      · rintro ⟨am, ham, -⟩
        cases ham
    · intro am ham hm2
      cases ham
  | some am =>
    by_cases hm : am.ruleMatches path headers
    · refine ⟨{ clientSide := true, intercepted := true, metadata := am.metadata }, ?_, rfl, ?_, ?_⟩
      · simp [interceptInfoQuery, h, hm]
      · constructor
        · intro _
          exact ⟨am, rfl, hm⟩
        · intro _
          rfl
      · intro am2 ham2 hm2
        cases ham2
        rfl
    · refine ⟨{ clientSide := true }, ?_, rfl, ?_, ?_⟩
      · simp [interceptInfoQuery, h, hm]
      · constructor
        · intro hf
          cases hf
        · rintro ⟨am2, ham2, hm2⟩
          cases ham2
          exact absurd hm2 hm
      · intro am2 ham2 hm2
        cases ham2
        exact absurd hm2 hm

/-- C10 witness: a concrete query with no registered matcher yields a
result and no error. -/
theorem C10_intercept_query_witness :
    (interceptInfoQuery [] "caller" "/api" []).2 = none :=
  (C10_intercept_query [] "caller" "/api" []).1

/-- C1 counterexample: when an intercept (ID `icept-1`) disappears from the
snapshot, the reconciler requests cancellation of its scope but does not
await the drain before returning — the emitted trace holds the cancellation
request and no drain-await. -/
theorem C1_counterexample :
    (setCurrentIntercepts [] [c1Icept] []).2 = [.cancelRequested "icept-1"] ∧
    TeardownEvent.drainAwaited "icept-1" ∉ (setCurrentIntercepts [] [c1Icept] []).2 := by
  constructor
  · rfl
  · decide

/-- C1 (amended): for every intercept ID present in the current set but
absent from the next snapshot, the reconciler requests cancellation of its
scope before it proceeds, but the drain is not awaited there and no forget
request is sent on that path; the drain is awaited — after cancellation and
before the forget request to the control plane — only in client-initiated
removal. -/
theorem C1_teardown_order (ws : List (String × AwaitIntercept)) (cur : List Intercept)
    (iis : List InterceptInfo) (ic : Intercept) :
    (ic ∈ cur → (∀ ii ∈ iis, ii.id ≠ ic.info.id) →
      TeardownEvent.cancelRequested ic.info.id ∈ (setCurrentIntercepts ws cur iis).2) ∧
    (∀ id, TeardownEvent.drainAwaited id ∉ (setCurrentIntercepts ws cur iis).2) ∧
    (∀ name, TeardownEvent.forgetRequested name ∉ (setCurrentIntercepts ws cur iis).2) ∧
    (removeInterceptTrace ic =
      [.handlerStopped ic.info.spec.name, .cancelRequested ic.info.id,
       .drainAwaited ic.info.id, .forgetRequested ic.info.spec.name]) := by
  refine ⟨?_, ?_, ?_, rfl⟩
  · intro hic hno
    have hmem : ic ∈ cur.filter (fun jc => !(iis.any (fun ii => ii.id == jc.info.id))) := by
      rw [List.mem_filter]
      refine ⟨hic, ?_⟩
      simp only [Bool.not_eq_true', List.any_eq_false]
      intro ii hii
      simpa using hno ii hii
    simpa [setCurrentIntercepts] using List.mem_map_of_mem _ hmem
  · intro id hmem
    simp only [setCurrentIntercepts, List.mem_map] at hmem
    obtain ⟨x, _, heq⟩ := hmem
    cases heq
  · intro name hmem
    simp only [setCurrentIntercepts, List.mem_map] at hmem
    obtain ⟨x, _, heq⟩ := hmem
    cases heq

/-- C1 witness: the dropped intercept's cancellation request is emitted in a
concrete reconciliation to the empty snapshot. -/
theorem C1_teardown_order_witness :
    TeardownEvent.cancelRequested c1Icept.info.id ∈ (setCurrentIntercepts [] [c1Icept] []).2 :=
  (C1_teardown_order [] [c1Icept] [] c1Icept).1 (by simp) (by simp)

end Telepresence
